import Mathlib

/-!
Verification development for the esdl-core cube engine (src/src/cablab/cube.py).

The Python source is shallowly embedded below.  Dates and datetimes (the code
only ever uses midnight datetimes at day granularity) are represented by their
proleptic-Gregorian ordinal day count, exactly as CPython's
datetime.date.toordinal computes it; Python floats on the spatial path are
represented by exact rationals; fallible code returns Except.
-/

namespace Esdl

set_option maxRecDepth 8000

/-! ## Calendar arithmetic (CPython datetime semantics, years 1..9999) -/

/-- Leap-year test of the proleptic Gregorian calendar, as in CPython's
datetime module. -/
def isLeapYear (y : Nat) : Bool :=
  decide ((y % 4 = 0 ∧ y % 100 ≠ 0) ∨ y % 400 = 0)

/-- Number of days in all years strictly before year y (CPython
_days_before_year): 365*(y-1) plus the number of leap years among 1..y-1. -/
def daysBeforeYear (y : Nat) : Nat :=
  365 * (y - 1) + (y - 1) / 4 + (y - 1) / 400 - (y - 1) / 100

/-- Number of days in year y strictly before month m (CPython
_days_before_month: cumulative month lengths plus the leap correction). -/
def daysBeforeMonth (y m : Nat) : Nat :=
  (match m with
   | 1 => 0 | 2 => 31 | 3 => 59 | 4 => 90 | 5 => 120 | 6 => 151
   | 7 => 181 | 8 => 212 | 9 => 243 | 10 => 273 | 11 => 304 | _ => 334)
  + (if 2 < m ∧ isLeapYear y then 1 else 0)

/-- A calendar date; the datetime values handled by cube.py are all midnight
datetimes, so day granularity is faithful. -/
structure Date where
  year : Nat
  month : Nat
  day : Nat
deriving DecidableEq

/-- Proleptic Gregorian ordinal of a date (CPython date.toordinal:
0001-01-01 is ordinal 1).  Datetime comparison and timedelta arithmetic in
the source are ordinal comparison and integer arithmetic at this resolution. -/
def Date.toOrdinal (d : Date) : Int :=
  (daysBeforeYear d.year : Int) + (daysBeforeMonth d.year d.month : Int) + (d.day : Int)

/-- Ordinal of January 1 of year y, i.e. datetime(y, 1, 1) in the source. -/
def jan1 (y : Nat) : Int :=
  Date.toOrdinal ⟨y, 1, 1⟩

set_option maxHeartbeats 1600000 in
theorem daysBeforeYear_succ (y : Nat) (h : 1 ≤ y) :
    daysBeforeYear (y + 1) = daysBeforeYear y + (if isLeapYear y then 366 else 365) := by
  have hiff : (isLeapYear y = true) ↔ ((y % 4 = 0 ∧ y % 100 ≠ 0) ∨ y % 400 = 0) := by
    simp [isLeapYear]
  rcases Decidable.em ((y % 4 = 0 ∧ y % 100 ≠ 0) ∨ y % 400 = 0) with hl | hl
  · rw [if_pos (hiff.mpr hl)]
    unfold daysBeforeYear
    omega
  · rw [if_neg (fun hh => hl (hiff.mp hh))]
    unfold daysBeforeYear
    omega

theorem daysBeforeMonth_one (y : Nat) : daysBeforeMonth y 1 = 0 := by
  norm_num [daysBeforeMonth]

theorem jan1_succ (y : Nat) (h : 1 ≤ y) :
    jan1 (y + 1) = jan1 y + (if isLeapYear y then 366 else 365) := by
  have hd := daysBeforeYear_succ y h
  simp only [jan1, Date.toOrdinal, daysBeforeMonth_one, hd]
  split <;> push_cast <;> ring

/-! ## Temporal overlap weight

The source calls cablab.util.temporal_weight; that module is not part of the
provided sources, only its two call sites are, so the function itself is
modelled from the spec. -/

/-- Overlap of the half-open intervals [a,b) and [c,d), in days. -/
def overlap (a b c d : Int) : Int :=
  max 0 (min b d - max a c)

/-- Modelled from the spec: cablab.util.temporal_weight is missing from the
provided sources.  Spec section 4.3: weight = overlap(a,b,c,d) / (b - a) with
overlap(a,b,c,d) = max(0, min(b,d) - max(a,c)).  Stated with Rat.divInt so
the kernel can evaluate it; temporal_weight_eq_div shows it is the rational
division of the spec formula. -/
def temporal_weight (a b c d : Int) : ℚ :=
  Rat.divInt (overlap a b c d) (b - a)

theorem temporal_weight_eq_div (a b c d : Int) :
    temporal_weight a b c d = (overlap a b c d : ℚ) / ((b : ℚ) - (a : ℚ)) := by
  rw [temporal_weight, Rat.divInt_eq_div]
  push_cast
  ring

/-! ## Period generation (Cube.update inner loop, cube.py lines 434-452) -/

/-- math.ceil(365.0 / temporal_res) for a positive integer temporal_res. -/
def numPeriodsPerYear (tr : Nat) : Nat :=
  (365 + tr - 1) / tr

/-- The inner period loop of Cube.update: starting at t1, emit n periods of
dt days each, clipping any end that falls past tmax to tmax, and continue
from the (clipped) end. -/
def periodsLoop (tmax dt : Int) : Nat → Int → List (Int × Int)
  | 0, _ => []
  | Nat.succ n, t1 =>
      let t2 := if tmax < t1 + dt then tmax else t1 + dt
      (t1, t2) :: periodsLoop tmax dt n t2

/-- The candidate periods Cube.update generates for calendar year Y:
num_periods_per_year steps of temporal_res days from datetime(Y,1,1),
clipped at datetime(Y+1,1,1). -/
def yearPeriods (Y : Nat) (tr : Nat) : List (Int × Int) :=
  periodsLoop (jan1 (Y + 1)) (tr : Int) (numPeriodsPerYear tr) (jan1 Y)

theorem clip_eq_min (tmax t dt : Int) :
    (if tmax < t + dt then tmax else t + dt) = min (t + dt) tmax := by
  rcases le_or_lt (t + dt) tmax with h | h
  · rw [if_neg (not_lt.mpr h), min_eq_left h]
  · rw [if_pos h, min_eq_right h.le]

theorem min_step_shift (t0 tmax dt c : Int) (hdt : 0 < dt) (hc : 0 ≤ c) :
    min (min (t0 + dt) tmax + c * dt) tmax
      = min (t0 + (c + 1) * dt) tmax := by
  have hk : 0 ≤ c * dt := mul_nonneg hc hdt.le
  have hd : t0 + (c + 1) * dt = t0 + dt + c * dt := by ring
  rcases le_total (t0 + dt) tmax with h | h
  · rw [min_eq_left h, hd]
  · rw [min_eq_right h, hd]
    have h1 : tmax ≤ tmax + c * dt := le_add_of_nonneg_right hk
    have h2 : tmax ≤ t0 + dt + c * dt :=
      le_trans h (le_add_of_nonneg_right hk)
    rw [min_eq_right h1, min_eq_right h2]

/-- Closed form of the period loop: the k-th emitted period is
([t0 + k*dt] ⊓ tmax, [t0 + (k+1)*dt] ⊓ tmax). -/
theorem periodsLoop_eq (dt : Int) (hdt : 0 < dt) :
    ∀ (n : Nat) (tmax t0 : Int), t0 ≤ tmax →
      periodsLoop tmax dt n t0 =
        (List.range n).map
          (fun k : Nat =>
            (min (t0 + (k : Int) * dt) tmax, min (t0 + ((k : Int) + 1) * dt) tmax)) := by
  intro n
  induction n with
  | zero => intro tmax t0 _; simp [periodsLoop]
  | succ n ih =>
    intro tmax t0 h
    have ht2le : min (t0 + dt) tmax ≤ tmax := min_le_right _ _
    rw [periodsLoop, clip_eq_min tmax t0 dt, ih tmax (min (t0 + dt) tmax) ht2le,
        List.range_succ_eq_map, List.map_cons, List.map_map]
    congr 1
    · simp [min_eq_left h]
    · apply List.map_congr_left
      intro k _
      simp only [Function.comp_apply, Nat.succ_eq_add_one, Nat.cast_add, Nat.cast_one]
      have h1 := min_step_shift t0 tmax dt (k : Int) hdt (Int.natCast_nonneg k)
      have h2 := min_step_shift t0 tmax dt ((k : Int) + 1) hdt
        (by positivity)
      rw [Prod.mk.injEq]
      exact ⟨h1, h2⟩

/-! ## CubeConfig (cube.py lines 193-327)

Fields not consulted by any claim (calendar, variables, file_format,
compression) are omitted; spatial quantities are exact rationals (all the
concrete values involved are exactly representable binary floats, so float
arithmetic on them is exact). -/

structure CubeConfig where
  spatial_res : ℚ
  grid_x0 : Int
  grid_y0 : Int
  grid_width : Int
  grid_height : Int
  temporal_res : Nat
  ref_time : Date
  start_time : Option Date
  end_time : Option Date
deriving DecidableEq

/-- The default configuration of CubeConfig.__init__ (spatial_res=0.25,
grid 1440x720 at offset (0,0), temporal_res=8, ref/start 2001-01-01,
end 2011-01-01). -/
def defaultConfig : CubeConfig :=
  { spatial_res := 1/4, grid_x0 := 0, grid_y0 := 0,
    grid_width := 1440, grid_height := 720, temporal_res := 8,
    ref_time := ⟨2001, 1, 1⟩,
    start_time := some ⟨2001, 1, 1⟩, end_time := some ⟨2011, 1, 1⟩ }

/-- CubeConfig.northing: 90.0 - grid_y0 * spatial_res. -/
def CubeConfig.northing (cfg : CubeConfig) : ℚ :=
  90 - (cfg.grid_y0 : ℚ) * cfg.spatial_res

/-- CubeConfig.easting: -180.0 + grid_x0 * spatial_res. -/
def CubeConfig.easting (cfg : CubeConfig) : ℚ :=
  -180 + (cfg.grid_x0 : ℚ) * cfg.spatial_res

/-! ## Cube.update period iteration (cube.py lines 415-457) -/

/-- The effective target window of Cube.update: provider coverage clamped by
the configured start_time/end_time (lines 426-430; a datetime is always
truthy, so the `if self._config.start_time and ...` test is just the
comparison when the bound is present). -/
def targetWindow (cfg : CubeConfig) (covStart covEnd : Date) : Date × Date :=
  (match cfg.start_time with
   | some st => if covStart.toOrdinal < st.toOrdinal then st else covStart
   | none => covStart,
   match cfg.end_time with
   | some et => if et.toOrdinal < covEnd.toOrdinal then et else covEnd
   | none => covEnd)

/-- range(target_year_1, target_year_2 + 1). -/
def yearRange (y1 y2 : Nat) : List Nat :=
  List.range' y1 (y2 + 1 - y1)

/-- All candidate periods of one update run, tagged with the year whose inner
loop generates them, in iteration order. -/
def updateCandidates (cfg : CubeConfig) (ts te : Date) : List (Nat × (Int × Int)) :=
  (yearRange ts.year te.year).flatMap
    (fun Y => (yearPeriods Y cfg.temporal_res).map (fun p => (Y, p)))

/-- The sequence of (period_start, period_end) arguments Cube.update passes
to provider.compute_variable_images: every candidate period whose
temporal_weight against the target window is positive, in iteration order
(the loop of lines 437-452 emits a call exactly when weight > 0.0). -/
def updateCalls (cfg : CubeConfig) (covStart covEnd : Date) : List (Int × Int) :=
  ((updateCandidates cfg (targetWindow cfg covStart covEnd).1 (targetWindow cfg covStart covEnd).2).filter
    (fun c => decide (0 < temporal_weight c.2.1 c.2.2
      (targetWindow cfg covStart covEnd).1.toOrdinal
      (targetWindow cfg covStart covEnd).2.toOrdinal))).map Prod.snd

/-- The configuration of claim C1: temporal_res=8, window 2001-01-01 to
2001-02-01 (the other fields are the defaults). -/
def c1Config : CubeConfig :=
  { defaultConfig with start_time := some ⟨2001, 1, 1⟩, end_time := some ⟨2001, 2, 1⟩ }

/-! ## Structural lemmas about the per-year period list -/

theorem jan1_lt_succ (Y : Nat) (hY : 1 ≤ Y) : jan1 Y < jan1 (Y + 1) := by
  rw [jan1_succ Y hY]
  split <;> omega

theorem numPeriodsPerYear_pos (tr : Nat) (htr : 0 < tr) : 0 < numPeriodsPerYear tr := by
  apply Nat.div_pos _ htr
  omega

theorem numPeriodsPerYear_mul_ge (tr : Nat) (htr : 0 < tr) :
    365 ≤ numPeriodsPerYear tr * tr := by
  have h1 := Nat.div_add_mod (365 + tr - 1) tr
  have h2 := Nat.mod_lt (365 + tr - 1) htr
  unfold numPeriodsPerYear
  rw [Nat.mul_comm]
  generalize hP : tr * ((365 + tr - 1) / tr) = P at h1 ⊢
  omega

theorem yearPeriods_closed (Y tr : Nat) (hY : 1 ≤ Y) (htr : 0 < tr) :
    yearPeriods Y tr = (List.range (numPeriodsPerYear tr)).map
      (fun k : Nat =>
        (min (jan1 Y + (k : Int) * (tr : Int)) (jan1 (Y + 1)),
         min (jan1 Y + ((k : Int) + 1) * (tr : Int)) (jan1 (Y + 1)))) := by
  exact periodsLoop_eq (tr : Int) (by exact_mod_cast htr) _ _ _ (jan1_lt_succ Y hY).le

theorem yearPeriods_length (Y tr : Nat) (hY : 1 ≤ Y) (htr : 0 < tr) :
    (yearPeriods Y tr).length = numPeriodsPerYear tr := by
  rw [yearPeriods_closed Y tr hY htr, List.length_map, List.length_range]

theorem yearPeriods_head (Y tr : Nat) (hY : 1 ≤ Y) (htr : 0 < tr) :
    (yearPeriods Y tr).head? =
      some (jan1 Y, min (jan1 Y + (tr : Int)) (jan1 (Y + 1))) := by
  rw [yearPeriods_closed Y tr hY htr]
  obtain ⟨m, hm⟩ := Nat.exists_eq_succ_of_ne_zero (Nat.pos_iff_ne_zero.mp
    (numPeriodsPerYear_pos tr htr))
  rw [hm, List.range_succ_eq_map, List.map_cons, List.head?_cons]
  norm_num [min_eq_left (jan1_lt_succ Y hY).le]

theorem min_step_next (t0 tmax dt c : Int) (hdt : 0 < dt) :
    min (t0 + (c + 1) * dt) tmax
      = min (min (t0 + c * dt) tmax + dt) tmax := by
  rcases le_total (t0 + c * dt) tmax with h | h
  · rw [min_eq_left h]
    congr 1
    ring
  · rw [min_eq_right h]
    have h1 : tmax ≤ t0 + (c + 1) * dt := by nlinarith
    have h2 : tmax ≤ tmax + dt := by omega
    rw [min_eq_right h1, min_eq_right h2]

theorem yearPeriods_clip (Y tr : Nat) (hY : 1 ≤ Y) (htr : 0 < tr) :
    ∀ p ∈ yearPeriods Y tr, p.2 = min (p.1 + (tr : Int)) (jan1 (Y + 1)) := by
  intro p hp
  rw [yearPeriods_closed Y tr hY htr] at hp
  obtain ⟨k, _, rfl⟩ := List.mem_map.mp hp
  have hdt : (0 : Int) < (tr : Int) := by exact_mod_cast htr
  exact min_step_next (jan1 Y) (jan1 (Y + 1)) (tr : Int) (k : Int) hdt

theorem period_fst_mono (t0 tmax dt : Int) (hdt : 0 ≤ dt) {i j : Nat} (hij : i < j) :
    min (t0 + ((i : Int) + 1) * dt) tmax ≤ min (t0 + (j : Int) * dt) tmax := by
  apply min_le_min _ le_rfl
  have hle : ((i : Int) + 1) ≤ (j : Int) := by exact_mod_cast hij
  nlinarith

theorem yearPeriods_disjoint (Y tr : Nat) (hY : 1 ≤ Y) (htr : 0 < tr) :
    ∀ p ∈ yearPeriods Y tr, ∀ q ∈ yearPeriods Y tr, p ≠ q →
      ∀ d : Int, p.1 ≤ d → d < p.2 → ¬(q.1 ≤ d ∧ d < q.2) := by
  intro p hp q hq hpq d hd1 hd2
  rw [yearPeriods_closed Y tr hY htr] at hp hq
  obtain ⟨i, _, rfl⟩ := List.mem_map.mp hp
  obtain ⟨j, _, rfl⟩ := List.mem_map.mp hq
  have hdt : (0 : Int) ≤ (tr : Int) := Int.natCast_nonneg tr
  rcases lt_trichotomy i j with hij | hij | hij
  · intro hcon
    have := period_fst_mono (jan1 Y) (jan1 (Y + 1)) (tr : Int) hdt hij
    simp only at hd2 hcon
    have : min (jan1 Y + ((j : Int)) * (tr : Int)) (jan1 (Y + 1)) ≤ d :=
      hcon.1
    exact absurd (lt_of_lt_of_le hd2 (period_fst_mono _ _ _ hdt hij)) (not_lt.mpr this)
  · exact absurd (by rw [hij]) hpq
  · intro hcon
    have := period_fst_mono (jan1 Y) (jan1 (Y + 1)) (tr : Int) hdt hij
    exact absurd (lt_of_lt_of_le hcon.2 (period_fst_mono _ _ _ hdt hij))
      (not_lt.mpr hd1)

theorem yearPeriods_cover (Y tr : Nat) (hY : 1 ≤ Y) (htr : 0 < tr) (d : Int) :
    (∃ p ∈ yearPeriods Y tr, p.1 ≤ d ∧ d < p.2) ↔
      (jan1 Y ≤ d ∧
        d < min (jan1 (Y + 1)) (jan1 Y + (numPeriodsPerYear tr : Int) * (tr : Int))) := by
  have hdt : (0 : Int) < (tr : Int) := by exact_mod_cast htr
  have ht0 : jan1 Y ≤ jan1 (Y + 1) := (jan1_lt_succ Y hY).le
  rw [yearPeriods_closed Y tr hY htr]
  constructor
  · rintro ⟨p, hp, hd1, hd2⟩
    obtain ⟨k, hk, rfl⟩ := List.mem_map.mp hp
    have hk' : k < numPeriodsPerYear tr := List.mem_range.mp hk
    simp only at hd1 hd2
    constructor
    · have h1 : jan1 Y ≤ jan1 Y + (k : Int) * (tr : Int) := by
        have : (0 : Int) ≤ (k : Int) * (tr : Int) :=
          mul_nonneg (Int.natCast_nonneg k) hdt.le
        omega
      exact le_trans (le_min h1 ht0) hd1
    · apply lt_min
      · exact lt_of_lt_of_le hd2 (min_le_right _ _)
      · have h2 : ((k : Int) + 1) * (tr : Int) ≤ (numPeriodsPerYear tr : Int) * (tr : Int) := by
          have : ((k : Int) + 1) ≤ (numPeriodsPerYear tr : Int) := by exact_mod_cast hk'
          nlinarith
        have := lt_of_lt_of_le hd2 (min_le_left _ _)
        omega
  · rintro ⟨hd1, hd2⟩
    have hd2a : d < jan1 (Y + 1) := lt_of_lt_of_le hd2 (min_le_left _ _)
    have hd2b : d < jan1 Y + (numPeriodsPerYear tr : Int) * (tr : Int) :=
      lt_of_lt_of_le hd2 (min_le_right _ _)
    have hm0 : (0 : Int) ≤ d - jan1 Y := by omega
    obtain ⟨m, hm⟩ : ∃ m : Nat, (m : Int) = d - jan1 Y := ⟨(d - jan1 Y).toNat, Int.toNat_of_nonneg hm0⟩
    have hdm := Nat.div_add_mod m tr
    have hrm := Nat.mod_lt m htr
    set q := m / tr with hq
    set r := m % tr with hr
    have hqn : q < numPeriodsPerYear tr := by
      have hmlt : (m : Int) < (numPeriodsPerYear tr : Int) * (tr : Int) := by omega
      have hmlt' : m < numPeriodsPerYear tr * tr := by exact_mod_cast hmlt
      have : tr * q ≤ m := by omega
      have h2 : tr * q < tr * numPeriodsPerYear tr := by
        calc tr * q ≤ m := this
        _ < numPeriodsPerYear tr * tr := hmlt'
        _ = tr * numPeriodsPerYear tr := Nat.mul_comm _ _
      exact Nat.lt_of_mul_lt_mul_left h2
    refine ⟨(min (jan1 Y + (q : Int) * (tr : Int)) (jan1 (Y + 1)),
             min (jan1 Y + ((q : Int) + 1) * (tr : Int)) (jan1 (Y + 1))), ?_, ?_, ?_⟩
    · exact List.mem_map.mpr ⟨q, List.mem_range.mpr hqn, rfl⟩
    · apply le_trans (min_le_left _ _)
      have : (q : Int) * (tr : Int) = ((tr * q : Nat) : Int) := by push_cast; ring
      omega
    · apply lt_min _ hd2a
      have : ((q : Int) + 1) * (tr : Int) = ((tr * q + tr : Nat) : Int) := by push_cast; ring
      omega

theorem yearPeriods_cover_nonleap (Y tr : Nat) (hY : 1 ≤ Y) (htr : 0 < tr)
    (hnl : isLeapYear Y = false) (d : Int) :
    (∃ p ∈ yearPeriods Y tr, p.1 ≤ d ∧ d < p.2) ↔
      (jan1 Y ≤ d ∧ d < jan1 (Y + 1)) := by
  have h365 : jan1 (Y + 1) = jan1 Y + 365 := by
    rw [jan1_succ Y hY, hnl]
    simp
  have hge : (365 : Int) ≤ (numPeriodsPerYear tr : Int) * (tr : Int) := by
    exact_mod_cast numPeriodsPerYear_mul_ge tr htr
  have hmin : jan1 (Y + 1) ≤ jan1 Y + (numPeriodsPerYear tr : Int) * (tr : Int) := by
    omega
  rw [yearPeriods_cover Y tr hY htr d, min_eq_left hmin]

/-! ## Claims C1 and C2 -/

/-- Claim C1: with temporal_res=8, config window 2001-01-01..2001-02-01 and
provider coverage [2001-01-01, 2001-02-01), Cube.update calls
provider.compute_variable_images exactly four times, with periods
(01-01,01-09), (01-09,01-17), (01-17,01-25), (01-25,02-02) in this order;
candidate periods of the year with zero overlap weight are skipped. -/
theorem claim_C1 :
    updateCalls c1Config ⟨2001, 1, 1⟩ ⟨2001, 2, 1⟩ =
      [(Date.toOrdinal ⟨2001, 1, 1⟩, Date.toOrdinal ⟨2001, 1, 9⟩),
       (Date.toOrdinal ⟨2001, 1, 9⟩, Date.toOrdinal ⟨2001, 1, 17⟩),
       (Date.toOrdinal ⟨2001, 1, 17⟩, Date.toOrdinal ⟨2001, 1, 25⟩),
       (Date.toOrdinal ⟨2001, 1, 25⟩, Date.toOrdinal ⟨2001, 2, 2⟩)] := by
  decide

/-- Claim C2 (amended): for every year Y and temporal_res tr > 0 the
candidate periods are exactly ceil(365/tr) half-open intervals, the first
starting at Y-01-01, each period ending tr days after its start unless
clipped to Y+1-01-01, mutually non-overlapping, and their union is
[Y-01-01, min(Y+1-01-01, Y-01-01 + ceil(365/tr)*tr)) — the full year for
every non-leap year, but NOT for a leap year when tr divides 365 (amended:
the original claim asserted full-year coverage unconditionally).  In
particular a non-leap year at tr=8 yields 46 periods, the last ending at
the next January 1. -/
theorem claim_C2 :
    (∀ Y tr : Nat, 1 ≤ Y → 0 < tr →
      ((yearPeriods Y tr).length = numPeriodsPerYear tr
        ∧ (yearPeriods Y tr).head? =
            some (jan1 Y, min (jan1 Y + (tr : Int)) (jan1 (Y + 1)))
        ∧ (∀ p ∈ yearPeriods Y tr, p.2 = min (p.1 + (tr : Int)) (jan1 (Y + 1)))
        ∧ (∀ p ∈ yearPeriods Y tr, ∀ q ∈ yearPeriods Y tr, p ≠ q →
            ∀ d : Int, p.1 ≤ d → d < p.2 → ¬(q.1 ≤ d ∧ d < q.2))
        ∧ (∀ d : Int, (∃ p ∈ yearPeriods Y tr, p.1 ≤ d ∧ d < p.2) ↔
            (jan1 Y ≤ d ∧
              d < min (jan1 (Y + 1))
                    (jan1 Y + (numPeriodsPerYear tr : Int) * (tr : Int))))
        ∧ (isLeapYear Y = false →
            ∀ d : Int, (∃ p ∈ yearPeriods Y tr, p.1 ≤ d ∧ d < p.2) ↔
              (jan1 Y ≤ d ∧ d < jan1 (Y + 1)))))
    ∧ numPeriodsPerYear 8 = 46
    ∧ (yearPeriods 2001 8).length = 46
    ∧ (yearPeriods 2001 8).getLast? = some (jan1 2001 + 360, jan1 2002) := by
  refine ⟨fun Y tr hY htr => ⟨yearPeriods_length Y tr hY htr,
    yearPeriods_head Y tr hY htr, yearPeriods_clip Y tr hY htr,
    yearPeriods_disjoint Y tr hY htr, yearPeriods_cover Y tr hY htr,
    fun hnl => yearPeriods_cover_nonleap Y tr hY htr hnl⟩, ?_, ?_, ?_⟩
  · decide
  · decide
  · decide

/-- Claim C2 witness: the amended claim instantiated at year 2001,
temporal_res 8. -/
theorem claim_C2_witness :
    (yearPeriods 2001 8).head? =
      some (jan1 2001, min (jan1 2001 + (8 : Int)) (jan1 2002)) :=
  (claim_C2.1 2001 8 (by decide) (by decide)).2.1

/-- Claim C2 counterexample: in leap year 2004 with temporal_res=365 the day
2004-12-31 (ordinal jan1 2004 + 365) belongs to the year but to none of the
generated periods, so the periods do not cover the full year. -/
theorem claim_C2_counterexample :
    jan1 2004 ≤ jan1 2004 + 365 ∧ jan1 2004 + 365 < jan1 2005 ∧
    ∀ p ∈ yearPeriods 2004 365, ¬(p.1 ≤ jan1 2004 + 365 ∧ jan1 2004 + 365 < p.2) := by
  decide

/-! ## BaseCubeSourceProvider.compute_variable_images (cube.py lines 132-164)

The subclass hook compute_variable_images_from_sources is abstract in the
source; it is a parameter subf here, returning Option (its docstring allows
returning None). -/

/-- The Python exception classes that the embedded code can raise. -/
inductive PyErr where
  | valueError
  | typeError
  | keyError
  | attributeError
deriving DecidableEq

/-- The index_to_weight mapping built by the loop of lines 149-154: every
source-range index whose temporal_weight against the requested period is
positive, with its weight, in index order (a Python dict with int keys
inserted in increasing order iterates in insertion order). -/
def indexToWeight (ranges : List (Int × Int)) (ps pe : Int) : List (Nat × ℚ) :=
  (List.range ranges.length).filterMap (fun i =>
    let r := ranges.getD i (0, 0)
    let w := temporal_weight r.1 r.2 ps pe
    if 0 < w then some (i, w) else none)

/-- BaseCubeSourceProvider.compute_variable_images: empty source list gives
None; empty weight mapping gives None; otherwise the subclass hook runs and
its result is logged via list(result.keys()) (line 162), which raises
AttributeError when the hook returned None. -/
def compute_variable_images {α : Type} (subf : List (Nat × ℚ) → Option α)
    (ranges : List (Int × Int)) (ps pe : Int) : Except PyErr (Option α) :=
  if ranges.length = 0 then Except.ok none
  else
    let itw := indexToWeight ranges ps pe
    if itw = [] then Except.ok none
    else
      match subf itw with
      | none => Except.error PyErr.attributeError
      | some r => Except.ok (some r)

theorem indexToWeight_mem (ranges : List (Int × Int)) (ps pe : Int) (i : Nat) (w : ℚ) :
    (i, w) ∈ indexToWeight ranges ps pe ↔
      (i < ranges.length ∧ 0 < w ∧
        w = temporal_weight (ranges.getD i (0, 0)).1 (ranges.getD i (0, 0)).2 ps pe) := by
  unfold indexToWeight
  rw [List.mem_filterMap]
  constructor
  · rintro ⟨j, hj, hop⟩
    have hjl : j < ranges.length := List.mem_range.mp hj
    by_cases hw : 0 < temporal_weight (ranges.getD j (0, 0)).1 (ranges.getD j (0, 0)).2 ps pe
    · simp only [if_pos hw, Option.some.injEq, Prod.mk.injEq] at hop
      obtain ⟨rfl, rfl⟩ := hop
      exact ⟨hjl, hw, rfl⟩
    · rw [if_neg hw] at hop
      exact Option.noConfusion hop
  · rintro ⟨hi, hw, rfl⟩
    refine ⟨i, List.mem_range.mpr hi, ?_⟩
    simp only [if_pos hw]

/-- Claim C3 (amended): for a non-empty source-range list the provider keeps
exactly the indices with weight overlap(s,e,ps,pe)/(e-s) > 0; it returns None
when no source range has positive weight; when the subclass hook returns a
non-None mapping the method returns exactly that result, but when the hook
returns None the method raises AttributeError (logging calls .keys() on the
None result) instead of returning None (the amendment). -/
theorem claim_C3 {α : Type} (subf : List (Nat × ℚ) → Option α)
    (ranges : List (Int × Int)) (ps pe : Int) (hne : ranges ≠ []) :
    ((∀ i : Nat, ∀ w : ℚ, (i, w) ∈ indexToWeight ranges ps pe ↔
        (i < ranges.length ∧ 0 < w ∧
          w = (overlap (ranges.getD i (0, 0)).1 (ranges.getD i (0, 0)).2 ps pe : ℚ) /
                (((ranges.getD i (0, 0)).2 : ℚ) - ((ranges.getD i (0, 0)).1 : ℚ))))
      ∧ (indexToWeight ranges ps pe = [] →
          compute_variable_images subf ranges ps pe = Except.ok none)
      ∧ (∀ r : α, subf (indexToWeight ranges ps pe) = some r →
          indexToWeight ranges ps pe ≠ [] →
          compute_variable_images subf ranges ps pe = Except.ok (some r))
      ∧ (subf (indexToWeight ranges ps pe) = none →
          indexToWeight ranges ps pe ≠ [] →
          compute_variable_images subf ranges ps pe = Except.error PyErr.attributeError)) := by
  have hlen : ¬(ranges.length = 0) := fun hl => hne (List.length_eq_zero.mp hl)
  refine ⟨?_, ?_, ?_, ?_⟩
  · intro i w
    rw [indexToWeight_mem, temporal_weight_eq_div]
  · intro h
    unfold compute_variable_images
    rw [if_neg hlen]
    simp only [h, if_pos]
  · intro r hr hitw
    unfold compute_variable_images
    rw [if_neg hlen]
    simp only [if_neg hitw, hr]
  · intro hr hitw
    unfold compute_variable_images
    rw [if_neg hlen]
    simp only [if_neg hitw, hr]

/-- Claim C3 witness: the amended claim applied with a hook returning the
size of the weight mapping; the single fully-overlapping source range is
kept and the result is returned unchanged. -/
theorem claim_C3_witness :
    compute_variable_images (fun l : List (Nat × ℚ) => some l.length)
      [((0 : Int), (10 : Int))] 0 10 = Except.ok (some 1) :=
  (claim_C3 (fun l : List (Nat × ℚ) => some l.length)
    [((0 : Int), (10 : Int))] 0 10 (by decide)).2.2.1 1 (by decide) (by decide)

/-- Claim C3 counterexample: with a non-empty source list, a positive-weight
index and a hook returning None, the method raises AttributeError instead of
returning the hook's result (None) as the original claim asserts. -/
theorem claim_C3_counterexample :
    indexToWeight [((0 : Int), (10 : Int))] 0 10 ≠ [] ∧
    compute_variable_images (fun _ : List (Nat × ℚ) => (none : Option Unit))
      [((0 : Int), (10 : Int))] 0 10 = Except.error PyErr.attributeError ∧
    (Except.error PyErr.attributeError : Except PyErr (Option Unit)) ≠
      Except.ok none :=
  ⟨by decide, by rfl, fun h => Except.noConfusion h⟩

/-! ## CubeData.get spatial index computation (cube.py lines 621-704)

The latitude/longitude arguments are modelled as pairs (a scalar argument v
becomes the pair (v, v), which is what the except-TypeError branches of
_get_lat_range/_get_lon_range produce).  Python float arithmetic is modelled
by exact rationals. -/

/-- Python's builtin round: round half to even, on exact rationals. -/
def pyRound (q : ℚ) : Int :=
  if q - (⌊q⌋ : ℚ) < 1/2 then ⌊q⌋
  else if 1/2 < q - (⌊q⌋ : ℚ) then ⌊q⌋ + 1
  else if ⌊q⌋ % 2 = 0 then ⌊q⌋ else ⌊q⌋ + 1

/-- Python's float modulo: a % m = a - m * floor(a/m), result signed like m. -/
def pyMod (a m : ℚ) : ℚ :=
  a - m * (⌊a / m⌋ : ℚ)

/-- Endpoint normalization of CubeData._get_lon_range (lines 693-700):
values below -180 are reduced modulo 180 (into [0,180)), then values above
180 modulo -180 (into (-180,0]). -/
def normLon (v : ℚ) : ℚ :=
  let v1 := if v < -180 then pyMod v 180 else v
  if 180 < v1 then pyMod v1 (-180) else v1

/-- CubeData._get_lon_range on a pair: normalize both endpoints, then on a
wrap-around span (lon_1 > lon_2) add 360 to lon_2 (lines 702-703). -/
def getLonPair (lon : ℚ × ℚ) : ℚ × ℚ :=
  if normLon lon.2 < normLon lon.1 then (normLon lon.1, normLon lon.2 + 360)
  else (normLon lon.1, normLon lon.2)

/-- Latitude-to-row conversion of CubeData.get (lines 640-641 and the
half-open correction of lines 645-646): grid_y1/grid_y2 by rounding, then
grid_y2 is decremented when it exceeds grid_y1 and the latitude of grid line
grid_y2 + grid_y0 equals lat_1 exactly. -/
def gridYRange (cfg : CubeConfig) (lat1 lat2 : ℚ) : Int × Int :=
  (pyRound ((90 - lat2) / cfg.spatial_res) - cfg.grid_y0,
   if pyRound ((90 - lat2) / cfg.spatial_res) - cfg.grid_y0 <
        pyRound ((90 - lat1) / cfg.spatial_res) - cfg.grid_y0
      ∧ 90 - ((pyRound ((90 - lat1) / cfg.spatial_res) - cfg.grid_y0
            + cfg.grid_y0 : Int) : ℚ) * cfg.spatial_res = lat1
    then pyRound ((90 - lat1) / cfg.spatial_res) - cfg.grid_y0 - 1
    else pyRound ((90 - lat1) / cfg.spatial_res) - cfg.grid_y0)

/-- Longitude-to-column conversion of CubeData.get (lines 642-643 and the
half-open correction of lines 647-648). -/
def gridXRange (cfg : CubeConfig) (lon1 lon2 : ℚ) : Int × Int :=
  (pyRound ((180 + lon1) / cfg.spatial_res) - cfg.grid_x0,
   if pyRound ((180 + lon1) / cfg.spatial_res) - cfg.grid_x0 <
        pyRound ((180 + lon2) / cfg.spatial_res) - cfg.grid_x0
      ∧ -180 + ((pyRound ((180 + lon2) / cfg.spatial_res) - cfg.grid_x0
            + cfg.grid_x0 : Int) : ℚ) * cfg.spatial_res = lon2
    then pyRound ((180 + lon2) / cfg.spatial_res) - cfg.grid_x0 - 1
    else pyRound ((180 + lon2) / cfg.spatial_res) - cfg.grid_x0)

/-- int(round(360.0 / spatial_res)) of line 650. -/
def globalGridWidth (cfg : CubeConfig) : Int :=
  pyRound (360 / cfg.spatial_res)

/-- The spatial part of CubeData.get: latitude validation
(_get_lat_range, lines 715-716), longitude normalization, row/column index
computation, and the dateline check of lines 650-660 which raises
ValueError('illegal longitude: ... dateline intersection not yet
implemented') when the upper column index reaches the global grid width.
Variable resolution and the time axis are handled separately. -/
def spatialQuery (cfg : CubeConfig) (lat lon : ℚ × ℚ) :
    Except String ((Int × Int) × (Int × Int)) :=
  if lat.1 < -90 ∨ 90 < lat.1 ∨ lat.2 < -90 ∨ 90 < lat.2 ∨ lat.2 < lat.1 then
    Except.error "invalid latitude argument"
  else if globalGridWidth cfg ≤ (gridXRange cfg (getLonPair lon).1 (getLonPair lon).2).2 then
    Except.error "illegal longitude: dateline intersection not yet implemented"
  else
    Except.ok (gridYRange cfg lat.1 lat.2,
               gridXRange cfg (getLonPair lon).1 (getLonPair lon).2)

theorem pyRound_intCast (n : Int) : pyRound ((n : ℚ)) = n := by
  unfold pyRound
  rw [Int.floor_intCast, sub_self]
  norm_num

theorem pyRound_eq_int {q : ℚ} {n : Int} (h : q = (n : ℚ)) : pyRound q = n := by
  rw [h, pyRound_intCast]

theorem floor_le_pyRound (q : ℚ) : ⌊q⌋ ≤ pyRound q := by
  unfold pyRound
  split_ifs <;> omega

theorem gridY_no_touch (cfg : CubeConfig) (hres : 0 < cfg.spatial_res) (lat1 lat2 : ℚ)
    (h : (gridYRange cfg lat1 lat2).1 < (gridYRange cfg lat1 lat2).2) :
    90 - (((gridYRange cfg lat1 lat2).2 + cfg.grid_y0 : Int) : ℚ) * cfg.spatial_res ≠ lat1 := by
  unfold gridYRange at h ⊢
  dsimp only at h ⊢
  by_cases hc :
      pyRound ((90 - lat2) / cfg.spatial_res) - cfg.grid_y0 <
        pyRound ((90 - lat1) / cfg.spatial_res) - cfg.grid_y0
      ∧ 90 - ((pyRound ((90 - lat1) / cfg.spatial_res) - cfg.grid_y0
            + cfg.grid_y0 : Int) : ℚ) * cfg.spatial_res = lat1
  · rw [if_pos hc] at h ⊢
    intro heq
    have h2 := hc.2
    have hXY : ((pyRound ((90 - lat1) / cfg.spatial_res) - cfg.grid_y0 - 1
          + cfg.grid_y0 : Int) : ℚ) * cfg.spatial_res
        = ((pyRound ((90 - lat1) / cfg.spatial_res) - cfg.grid_y0
          + cfg.grid_y0 : Int) : ℚ) * cfg.spatial_res := by linarith
    push_cast at hXY
    have : cfg.spatial_res = 0 := by linarith [hXY]
    exact absurd this (ne_of_gt hres)
  · rw [if_neg hc] at h ⊢
    intro heq
    exact hc ⟨h, heq⟩

theorem gridX_no_touch (cfg : CubeConfig) (hres : 0 < cfg.spatial_res) (lon1 lon2 : ℚ)
    (h : (gridXRange cfg lon1 lon2).1 < (gridXRange cfg lon1 lon2).2) :
    -180 + (((gridXRange cfg lon1 lon2).2 + cfg.grid_x0 : Int) : ℚ) * cfg.spatial_res ≠ lon2 := by
  unfold gridXRange at h ⊢
  dsimp only at h ⊢
  by_cases hc :
      pyRound ((180 + lon1) / cfg.spatial_res) - cfg.grid_x0 <
        pyRound ((180 + lon2) / cfg.spatial_res) - cfg.grid_x0
      ∧ -180 + ((pyRound ((180 + lon2) / cfg.spatial_res) - cfg.grid_x0
            + cfg.grid_x0 : Int) : ℚ) * cfg.spatial_res = lon2
  · rw [if_pos hc] at h ⊢
    intro heq
    have h2 := hc.2
    have hXY : ((pyRound ((180 + lon2) / cfg.spatial_res) - cfg.grid_x0 - 1
          + cfg.grid_x0 : Int) : ℚ) * cfg.spatial_res
        = ((pyRound ((180 + lon2) / cfg.spatial_res) - cfg.grid_x0
          + cfg.grid_x0 : Int) : ℚ) * cfg.spatial_res := by linarith
    push_cast at hXY
    have : cfg.spatial_res = 0 := by linarith [hXY]
    exact absurd this (ne_of_gt hres)
  · rw [if_neg hc] at h ⊢
    intro heq
    exact hc ⟨h, heq⟩

/-- Claim C4: on the default 0.25-degree global grid, latitude [50,60] and
longitude [10,30] resolve to 40 rows and 80 columns; longitude [0,180] gives
columns 720..1439, excluding the cell whose left edge is exactly 180 (cell
1440); and in general a final upper row/column index greater than the lower
one never points at a cell whose grid-line coordinate equals the relevant
query bound (the half-open decrement of lines 645-648). -/
theorem claim_C4 :
    (spatialQuery defaultConfig (50, 60) (10, 30) =
        Except.ok ((120, 159), (760, 839))
      ∧ (159 : Int) - 120 + 1 = 40 ∧ (839 : Int) - 760 + 1 = 80)
    ∧ (gridXRange defaultConfig 0 180 = (720, 1439)
      ∧ -180 + ((1440 : Int) : ℚ) * defaultConfig.spatial_res = 180)
    ∧ (∀ cfg : CubeConfig, 0 < cfg.spatial_res → ∀ lat1 lat2 : ℚ,
        (gridYRange cfg lat1 lat2).1 < (gridYRange cfg lat1 lat2).2 →
          90 - (((gridYRange cfg lat1 lat2).2 + cfg.grid_y0 : Int) : ℚ)
              * cfg.spatial_res ≠ lat1)
    ∧ (∀ cfg : CubeConfig, 0 < cfg.spatial_res → ∀ lon1 lon2 : ℚ,
        (gridXRange cfg lon1 lon2).1 < (gridXRange cfg lon1 lon2).2 →
          -180 + (((gridXRange cfg lon1 lon2).2 + cfg.grid_x0 : Int) : ℚ)
              * cfg.spatial_res ≠ lon2) := by
  refine ⟨⟨?_, by norm_num, by norm_num⟩, ⟨?_, by norm_num [defaultConfig]⟩, ?_, ?_⟩
  · norm_num [spatialQuery, getLonPair, normLon, pyMod, gridYRange, gridXRange,
      globalGridWidth, pyRound, defaultConfig]
  · norm_num [gridXRange, pyRound, defaultConfig]
  · exact fun cfg hres lat1 lat2 h => gridY_no_touch cfg hres lat1 lat2 h
  · exact fun cfg hres lon1 lon2 h => gridX_no_touch cfg hres lon1 lon2 h

/-- Claim C4 witness: the general half-open-correction property applied at
the concrete [50,60] latitude query of the claim. -/
theorem claim_C4_witness :
    90 - (((gridYRange defaultConfig 50 60).2 + defaultConfig.grid_y0 : Int) : ℚ)
        * defaultConfig.spatial_res ≠ 50 :=
  claim_C4.2.2.1 defaultConfig (by norm_num [defaultConfig]) 50 60
    (by norm_num [gridYRange, pyRound, defaultConfig])

theorem pyMod_pos_bounds (v m : ℚ) (hm : 0 < m) : 0 ≤ pyMod v m ∧ pyMod v m < m := by
  unfold pyMod
  have h1 : ((⌊v / m⌋ : Int) : ℚ) ≤ v / m := Int.floor_le _
  have h2 : v / m < ((⌊v / m⌋ : Int) : ℚ) + 1 := Int.lt_floor_add_one _
  have hv : m * (v / m) = v := by
    rw [← mul_div_assoc]
    exact mul_div_cancel_left₀ v (ne_of_gt hm)
  constructor
  · have h3 := mul_le_mul_of_nonneg_left h1 hm.le
    rw [hv] at h3
    linarith
  · have h4 := mul_lt_mul_of_pos_left h2 hm
    rw [hv, mul_add, mul_one] at h4
    linarith

theorem pyMod_neg_bounds (v m : ℚ) (hm : m < 0) : m < pyMod v m ∧ pyMod v m ≤ 0 := by
  unfold pyMod
  have h1 : ((⌊v / m⌋ : Int) : ℚ) ≤ v / m := Int.floor_le _
  have h2 : v / m < ((⌊v / m⌋ : Int) : ℚ) + 1 := Int.lt_floor_add_one _
  have hv : m * (v / m) = v := by
    rw [← mul_div_assoc]
    exact mul_div_cancel_left₀ v (ne_of_lt hm)
  constructor
  · have h4 := mul_lt_mul_of_neg_left h2 hm
    rw [hv, mul_add, mul_one] at h4
    linarith
  · have h3 := mul_le_mul_of_nonpos_left h1 hm.le
    rw [hv] at h3
    linarith

theorem normLon_bounds (v : ℚ) : -180 ≤ normLon v ∧ normLon v ≤ 180 := by
  unfold normLon
  by_cases h1 : v < -180
  · simp only [if_pos h1]
    have hb := pyMod_pos_bounds v 180 (by norm_num)
    rw [if_neg (by linarith : ¬(180 : ℚ) < pyMod v 180)]
    constructor <;> linarith [hb.1, hb.2]
  · simp only [if_neg h1]
    by_cases h2 : (180 : ℚ) < v
    · rw [if_pos h2]
      have hb := pyMod_neg_bounds v (-180) (by norm_num)
      constructor <;> linarith [hb.1, hb.2]
    · rw [if_neg h2]
      push_neg at h1 h2
      exact ⟨h1, h2⟩

/-- Claim C5 (amended): on a cube whose grid starts at the date line
(grid_x0 = 0) and whose global grid width times spatial_res is exactly 360,
every longitude pair whose normalized endpoints satisfy lo > hi with
hi strictly above -180 drives the upper column index to the global grid
width or beyond, and get raises the dateline-intersection ValueError for
every valid latitude range.  (Amendment: the original claim, quantified over
ALL cubes and all lo > hi pairs, is false — with grid_x0 > 0 the grid_x0
offset is subtracted before the comparison with the global width and the
query can proceed silently; see the counterexample.) -/
theorem claim_C5 (cfg : CubeConfig) (lon : ℚ × ℚ)
    (hx0 : cfg.grid_x0 = 0) (hres : 0 < cfg.spatial_res)
    (hdiv : ((globalGridWidth cfg : Int) : ℚ) * cfg.spatial_res = 360)
    (hwrap : normLon lon.2 < normLon lon.1) (hhi : -180 < normLon lon.2) :
    globalGridWidth cfg ≤ (gridXRange cfg (getLonPair lon).1 (getLonPair lon).2).2
    ∧ ∀ lat : ℚ × ℚ,
        ¬(lat.1 < -90 ∨ 90 < lat.1 ∨ lat.2 < -90 ∨ 90 < lat.2 ∨ lat.2 < lat.1) →
        spatialQuery cfg lat lon =
          Except.error "illegal longitude: dateline intersection not yet implemented" := by
  have hl2 : (getLonPair lon).2 = normLon lon.2 + 360 := by
    unfold getLonPair
    rw [if_pos hwrap]
  have hl2gt : (180 : ℚ) < (getLonPair lon).2 := by
    rw [hl2]
    linarith
  have hW : globalGridWidth cfg ≤
      (gridXRange cfg (getLonPair lon).1 (getLonPair lon).2).2 := by
    have hWle : ((globalGridWidth cfg : Int) : ℚ) ≤
        (180 + (getLonPair lon).2) / cfg.spatial_res := by
      rw [le_div_iff₀ hres]
      linarith
    have hfl : globalGridWidth cfg ≤ ⌊(180 + (getLonPair lon).2) / cfg.spatial_res⌋ :=
      Int.le_floor.mpr hWle
    have hpr : globalGridWidth cfg ≤
        pyRound ((180 + (getLonPair lon).2) / cfg.spatial_res) :=
      le_trans hfl (floor_le_pyRound _)
    unfold gridXRange
    dsimp only
    by_cases hc :
        pyRound ((180 + (getLonPair lon).1) / cfg.spatial_res) - cfg.grid_x0 <
          pyRound ((180 + (getLonPair lon).2) / cfg.spatial_res) - cfg.grid_x0
        ∧ -180 + ((pyRound ((180 + (getLonPair lon).2) / cfg.spatial_res) - cfg.grid_x0
              + cfg.grid_x0 : Int) : ℚ) * cfg.spatial_res = (getLonPair lon).2
    · rw [if_pos hc]
      have h2 := hc.2
      have hcast : ((pyRound ((180 + (getLonPair lon).2) / cfg.spatial_res) - cfg.grid_x0
            + cfg.grid_x0 : Int) : ℚ)
          = ((pyRound ((180 + (getLonPair lon).2) / cfg.spatial_res) : Int) : ℚ) := by
        push_cast
        ring
      rw [hcast] at h2
      have hbW : ((globalGridWidth cfg : Int) : ℚ) <
          ((pyRound ((180 + (getLonPair lon).2) / cfg.spatial_res) : Int) : ℚ) := by
        have hmul : ((globalGridWidth cfg : Int) : ℚ) * cfg.spatial_res <
            ((pyRound ((180 + (getLonPair lon).2) / cfg.spatial_res) : Int) : ℚ)
              * cfg.spatial_res := by
          linarith
        exact lt_of_mul_lt_mul_right hmul hres.le
      have hbW' : globalGridWidth cfg <
          pyRound ((180 + (getLonPair lon).2) / cfg.spatial_res) := by
        exact_mod_cast hbW
      omega
    · rw [if_neg hc]
      omega
  refine ⟨hW, ?_⟩
  intro lat hlat
  unfold spatialQuery
  rw [if_neg hlat, if_pos hW]

/-- Claim C5 witness: the amended claim applied to the default global cube
and the claim's example query longitude=[170,-170]. -/
theorem claim_C5_witness :
    spatialQuery defaultConfig ((-90 : ℚ), (90 : ℚ)) ((170 : ℚ), (-170 : ℚ)) =
      Except.error "illegal longitude: dateline intersection not yet implemented" :=
  (claim_C5 defaultConfig ((170 : ℚ), (-170 : ℚ))
    (by norm_num [defaultConfig])
    (by norm_num [defaultConfig])
    (by norm_num [globalGridWidth, pyRound, defaultConfig])
    (by norm_num [normLon, pyMod])
    (by norm_num [normLon, pyMod])).2 ((-90 : ℚ), (90 : ℚ)) (by norm_num)

/-! ## CubeConfig._validate (cube.py lines 312-327) -/

/-- Lower end of the derived latitude interval: 90 - (grid_y0+grid_height)*spatial_res. -/
def latLo (cfg : CubeConfig) : ℚ :=
  90 - ((cfg.grid_y0 + cfg.grid_height : Int) : ℚ) * cfg.spatial_res

/-- Upper end of the derived latitude interval: 90 - grid_y0*spatial_res. -/
def latHi (cfg : CubeConfig) : ℚ :=
  90 - ((cfg.grid_y0 : Int) : ℚ) * cfg.spatial_res

/-- Lower end of the derived longitude interval: -180 + grid_x0*spatial_res. -/
def lonLo (cfg : CubeConfig) : ℚ :=
  -180 + ((cfg.grid_x0 : Int) : ℚ) * cfg.spatial_res

/-- Upper end of the derived longitude interval: -180 + (grid_x0+grid_width)*spatial_res. -/
def lonHi (cfg : CubeConfig) : ℚ :=
  -180 + ((cfg.grid_x0 + cfg.grid_width : Int) : ℚ) * cfg.spatial_res

/-- CubeConfig._validate: the four checks in source order; the first failing
check raises ValueError with its message. -/
def validateConfig (cfg : CubeConfig) : Except String Unit :=
  if cfg.grid_x0 < 0 then Except.error "illegal grid_x0 value"
  else if cfg.grid_y0 < 0 then Except.error "illegal grid_y0 value"
  else if latHi cfg ≤ latLo cfg ∨ latLo cfg < -90 ∨ 90 < latLo cfg
         ∨ latHi cfg < -90 ∨ 90 < latHi cfg then
    Except.error "illegal combination of grid_y0, grid_height, spatial_res values"
  else if lonHi cfg ≤ lonLo cfg ∨ lonLo cfg < -180 ∨ 180 < lonLo cfg
         ∨ lonHi cfg < -180 ∨ 180 < lonHi cfg then
    Except.error "illegal combination of grid_x0, grid_width, spatial_res values"
  else Except.ok ()

/-- The rejection condition exactly as the claim words it: negative offsets,
or a degenerate latitude/longitude interval, or one extending beyond the
globe. -/
def claimRejects (cfg : CubeConfig) : Prop :=
  cfg.grid_x0 < 0 ∨ cfg.grid_y0 < 0
  ∨ (latHi cfg ≤ latLo cfg ∨ latLo cfg < -90 ∨ 90 < latHi cfg)
  ∨ (lonHi cfg ≤ lonLo cfg ∨ lonLo cfg < -180 ∨ 180 < lonHi cfg)

/-- Claim C6: CubeConfig construction raises exactly when grid_x0 < 0, or
grid_y0 < 0, or the derived latitude or longitude interval is degenerate or
extends beyond [-90,90] / [-180,180]; the default configuration, whose
interval endpoints are exactly -90, 90, -180 and 180, is accepted. -/
theorem claim_C6 :
    (∀ cfg : CubeConfig,
      (∃ e, validateConfig cfg = Except.error e) ↔ claimRejects cfg)
    ∧ validateConfig defaultConfig = Except.ok () := by
  constructor
  · intro cfg
    unfold validateConfig claimRejects
    split_ifs with h1 h2 h3 h4
    · exact iff_of_true ⟨_, rfl⟩ (Or.inl h1)
    · exact iff_of_true ⟨_, rfl⟩ (Or.inr (Or.inl h2))
    · refine iff_of_true ⟨_, rfl⟩ (Or.inr (Or.inr (Or.inl ?_)))
      rcases h3 with h | h | h | h | h
      · exact Or.inl h
      · exact Or.inr (Or.inl h)
      · rcases le_or_lt (latHi cfg) (latLo cfg) with hc | hc
        · exact Or.inl hc
        · exact Or.inr (Or.inr (by linarith))
      · rcases le_or_lt (latHi cfg) (latLo cfg) with hc | hc
        · exact Or.inl hc
        · exact Or.inr (Or.inl (by linarith))
      · exact Or.inr (Or.inr h)
    · refine iff_of_true ⟨_, rfl⟩ (Or.inr (Or.inr (Or.inr ?_)))
      rcases h4 with h | h | h | h | h
      · exact Or.inl h
      · exact Or.inr (Or.inl h)
      · rcases le_or_lt (lonHi cfg) (lonLo cfg) with hc | hc
        · exact Or.inl hc
        · exact Or.inr (Or.inr (by linarith))
      · rcases le_or_lt (lonHi cfg) (lonLo cfg) with hc | hc
        · exact Or.inl hc
        · exact Or.inr (Or.inl (by linarith))
      · exact Or.inr (Or.inr h)
    · constructor
      · rintro ⟨e, he⟩
        simp at he
      · intro hr
        push_neg at h3 h4
        obtain ⟨c1, c2, c3, c4, c5⟩ := h3
        obtain ⟨d1, d2, d3, d4, d5⟩ := h4
        rcases hr with h | h | h | h
        · exact absurd h h1
        · exact absurd h h2
        · rcases h with h | h | h
          · linarith
          · linarith
          · linarith
        · rcases h with h | h | h
          · linarith
          · linarith
          · linarith
  · norm_num [validateConfig, latLo, latHi, lonLo, lonHi, defaultConfig]

/-- The sub-window configuration used by the C5 counterexample: same
0.25-degree grid but starting 10 degrees east of the date line
(grid_x0 = 40, grid_width = 1400; a valid configuration). -/
def cfg40 : CubeConfig :=
  { defaultConfig with grid_x0 := 40, grid_width := 1400 }

/-- Claim C5 counterexample: cfg40 passes _validate, and on it the query
longitude=[170,-175] has normalized lo > hi (an anti-meridian crossing), yet
the computed upper column index 1419 stays below the global grid width 1440
— because grid_x0 was subtracted first — and get returns a result instead
of raising the dateline error. -/
theorem claim_C5_counterexample :
    validateConfig cfg40 = Except.ok () ∧
    normLon (-175 : ℚ) < normLon (170 : ℚ) ∧
    (gridXRange cfg40 (getLonPair ((170 : ℚ), (-175 : ℚ))).1
        (getLonPair ((170 : ℚ), (-175 : ℚ))).2).2 < globalGridWidth cfg40 ∧
    spatialQuery cfg40 ((-90 : ℚ), (90 : ℚ)) ((170 : ℚ), (-175 : ℚ)) =
      Except.ok ((0, 719), (1360, 1419)) := by
  refine ⟨by norm_num [validateConfig, latLo, latHi, lonLo, lonHi, cfg40, defaultConfig],
    by norm_num [normLon, pyMod], ?_, ?_⟩
  · norm_num [gridXRange, getLonPair, normLon, pyMod, globalGridWidth, pyRound,
      cfg40, defaultConfig]
  · norm_num [spatialQuery, getLonPair, normLon, pyMod, gridYRange, gridXRange,
      globalGridWidth, pyRound, cfg40, defaultConfig]

/-! ## PartitionStore: Cube._write_image / _init_variable_dataset
(cube.py lines 459-549)

A netCDF partition file is modelled by its schema (static lat/lon coordinate
values and variable attributes, fixed at creation) plus three parallel record
arrays along the unlimited time axis; assigning var[i] at i = len(var)
appends.  The image payload type is a parameter. -/

structure VarDataset (α : Type) where
  latVals : List ℚ
  lonVals : List ℚ
  attrs : List (String × String)
  startTimes : List Int
  endTimes : List Int
  images : List α
deriving DecidableEq

/-- The provider data consulted when creating a partition:
get_spatial_coverage() and get_variable_descriptors() (attribute lists). -/
structure ProviderInfo where
  x0 : Int
  y0 : Int
  width : Nat
  height : Nat
  descriptors : List (String × List (String × String))
deriving DecidableEq

/-- Association-list lookup by key (a Python dict read). -/
def lookupA {β : Type} : List (String × β) → String → Option β
  | [], _ => none
  | (k, v) :: rest, key => if k = key then some v else lookupA rest key

/-- Update-or-insert on an association list (a Python dict write). -/
def upsert {β : Type} : List (String × β) → String → β → List (String × β)
  | [], key, v => [(key, v)]
  | (k, w) :: rest, key, v =>
      if k = key then (key, v) :: rest else (k, w) :: upsert rest key v

/-- Zero-padded 4-digit year, as in the '%04d' of the filename pattern. -/
def pad4 (n : Nat) : String :=
  String.mk (List.replicate (4 - (toString n).length) '0') ++ toString n

/-- The partition filename '%04d_%s.nc' % (year, var_name). -/
def partitionFileName (year : Nat) (varName : String) : String :=
  pad4 year ++ "_" ++ varName ++ ".nc"

/-- Cube._init_variable_dataset (lines 495-549): static schema with
lat[i] = northing + y0*res - i*res, lon[i] = easting + x0*res + i*res, the
variable's descriptor attributes, and empty record arrays.  (A missing
descriptor raises KeyError in Python; the model defaults to no attributes —
no claim exercises that path.) -/
def initVariableDataset (α : Type) (cfg : CubeConfig) (pv : ProviderInfo)
    (varName : String) : VarDataset α :=
  { latVals := (List.range pv.height).map
      (fun i => cfg.northing + (pv.y0 : ℚ) * cfg.spatial_res - (i : ℚ) * cfg.spatial_res),
    lonVals := (List.range pv.width).map
      (fun i => cfg.easting + (pv.x0 : ℚ) * cfg.spatial_res + (i : ℚ) * cfg.spatial_res),
    attrs := (lookupA pv.descriptors varName).getD [],
    startTimes := [], endTimes := [], images := [] }

/-- One writer session's state: the on-disk partition files and the dict of
handles opened during this session (Cube.update's datasets dict), keyed by
filename. -/
structure WriteState (α : Type) where
  disk : List (String × VarDataset α)
  session : List String
deriving DecidableEq

/-- Cube._write_image (lines 465-493): reuse the session handle when the
filename is already in the datasets dict; otherwise open the existing file
for append ('a'), or create and initialize it; then append one record at
index i = len(start_time), with times encoded as days since ref_time. -/
def writeImage {α : Type} (cfg : CubeConfig) (pv : ProviderInfo) (st : WriteState α)
    (year : Nat) (t1 t2 : Int) (varName : String) (img : α) : WriteState α :=
  let filename := partitionFileName year varName
  let ds : VarDataset α :=
    if filename ∈ st.session then
      (lookupA st.disk filename).getD (initVariableDataset α cfg pv varName)
    else
      match lookupA st.disk filename with
      | some d => d
      | none => initVariableDataset α cfg pv varName
  let ds' : VarDataset α :=
    { ds with
      startTimes := ds.startTimes ++ [t1 - Date.toOrdinal cfg.ref_time],
      endTimes := ds.endTimes ++ [t2 - Date.toOrdinal cfg.ref_time],
      images := ds.images ++ [img] }
  { disk := upsert st.disk filename ds',
    session := if filename ∈ st.session then st.session else filename :: st.session }

theorem lookupA_upsert_self {β : Type} (l : List (String × β)) (k : String) (v : β) :
    lookupA (upsert l k v) k = some v := by
  induction l with
  | nil => simp [upsert, lookupA]
  | cons kv rest ih =>
    obtain ⟨k', w⟩ := kv
    by_cases h : k' = k
    · simp [upsert, lookupA, h]
    · simp [upsert, lookupA, h, ih]

theorem lookupA_upsert_other {β : Type} (l : List (String × β)) (k f : String) (v : β)
    (hne : f ≠ k) :
    lookupA (upsert l k v) f = lookupA l f := by
  have hkf : ¬(k = f) := fun h => hne h.symm
  induction l with
  | nil => simp [upsert, lookupA, hkf]
  | cons kv rest ih =>
    obtain ⟨k', w⟩ := kv
    by_cases h : k' = k
    · subst h
      simp [upsert, lookupA, hkf]
    · simp [upsert, lookupA, h, ih]

/-- Claim C7: writing to a partition file that already exists on disk but is
not yet open in this session appends exactly one record at the end of the
existing record arrays (index i = current length), leaves the schema
(lat/lon coordinate values and attributes) and all existing records exactly
as they were, leaves every other file untouched, and registers the handle in
the session. -/
theorem claim_C7 (α : Type) (cfg : CubeConfig) (pv : ProviderInfo)
    (st : WriteState α) (year : Nat) (t1 t2 : Int) (varName : String) (img : α)
    (d : VarDataset α)
    (hdisk : lookupA st.disk (partitionFileName year varName) = some d)
    (hsess : partitionFileName year varName ∉ st.session) :
    lookupA (writeImage cfg pv st year t1 t2 varName img).disk
        (partitionFileName year varName) =
      some { latVals := d.latVals, lonVals := d.lonVals, attrs := d.attrs,
             startTimes := d.startTimes ++ [t1 - Date.toOrdinal cfg.ref_time],
             endTimes := d.endTimes ++ [t2 - Date.toOrdinal cfg.ref_time],
             images := d.images ++ [img] }
    ∧ (∀ f : String, f ≠ partitionFileName year varName →
        lookupA (writeImage cfg pv st year t1 t2 varName img).disk f =
          lookupA st.disk f)
    ∧ (writeImage cfg pv st year t1 t2 varName img).session =
        partitionFileName year varName :: st.session := by
  unfold writeImage
  simp only [if_neg hsess, hdisk]
  refine ⟨?_, ?_, ?_⟩
  · exact lookupA_upsert_self _ _ _
  · intro f hf
    exact lookupA_upsert_other _ _ _ _ hf
  · trivial

/-- A small concrete provider coverage/descriptor record shared by the C7
witness and the C8 failing run. -/
def pv0 : ProviderInfo :=
  { x0 := 0, y0 := 0, width := 3, height := 2,
    descriptors := [("LAI", [("units", "1")])] }

/-- A concrete pre-existing partition for the C7 witness. -/
def d0 : VarDataset Nat :=
  { latVals := [1, 2], lonVals := [3], attrs := [("units", "1")],
    startTimes := [0], endTimes := [8], images := [7] }

/-- The C7 witness start state: d0 on disk, no handle open yet. -/
def st0 : WriteState Nat :=
  { disk := [(partitionFileName 2001 "LAI", d0)], session := [] }

/-- Claim C7 witness: appending to the pre-existing 2001_LAI.nc partition
keeps its schema and prior record and appends the new record at the end. -/
theorem claim_C7_witness :
    lookupA (writeImage defaultConfig pv0 st0 2001 (jan1 2001 + 8) (jan1 2001 + 16)
        "LAI" 9).disk (partitionFileName 2001 "LAI") =
      some { latVals := d0.latVals, lonVals := d0.lonVals, attrs := d0.attrs,
             startTimes := d0.startTimes ++ [jan1 2001 + 8 - Date.toOrdinal defaultConfig.ref_time],
             endTimes := d0.endTimes ++ [jan1 2001 + 16 - Date.toOrdinal defaultConfig.ref_time],
             images := d0.images ++ [9] } :=
  (claim_C7 Nat defaultConfig pv0 st0 2001 (jan1 2001 + 8) (jan1 2001 + 16) "LAI" 9 d0
    (by decide) (by decide)).1

/-! ## Cube.update as a session: error propagation and handle release
(cube.py lines 415-457) -/

/-- A provider as Cube.update consumes it: temporal coverage plus
compute_variable_images, which may raise (Except.error), return None, or
return a name-to-image mapping. -/
structure ProviderModel (α : Type) where
  coverage : Date × Date
  images : Int × Int → Except String (Option (List (String × α)))

/-- Cube._write_images (lines 459-463): write each variable's image. -/
def writeImages {α : Type} (cfg : CubeConfig) (pv : ProviderInfo) (st : WriteState α)
    (year : Nat) (p : Int × Int) (imgs : List (String × α)) : WriteState α :=
  imgs.foldl (fun s nv => writeImage cfg pv s year p.1 p.2 nv.1 nv.2) st

/-- The period loop of Cube.update threading the datasets dict.  A provider
exception aborts the loop immediately, carrying the state as it was — there
is no try/finally in update, so the closing loop of lines 454-455 does not
run on that path. -/
def runPeriods {α : Type} (cfg : CubeConfig) (pv : ProviderInfo)
    (provider : ProviderModel α) (tsOrd teOrd : Int) :
    List (Nat × (Int × Int)) → WriteState α → Option String × WriteState α
  | [], st => (none, st)
  | (Y, p) :: rest, st =>
      if 0 < temporal_weight p.1 p.2 tsOrd teOrd then
        match provider.images p with
        | Except.error e => (some e, st)
        | Except.ok none => runPeriods cfg pv provider tsOrd teOrd rest st
        | Except.ok (some imgs) =>
            runPeriods cfg pv provider tsOrd teOrd rest (writeImages cfg pv st Y p imgs)
      else runPeriods cfg pv provider tsOrd teOrd rest st

/-- One Cube.update session over initial disk contents disk0, returning the
propagated provider error (if any) together with the list of partition
handles still open when update returns: empty after the normal closing loop,
but the whole session dict when the provider raised mid-loop. -/
def updateRun {α : Type} (cfg : CubeConfig) (pv : ProviderInfo)
    (provider : ProviderModel α) (disk0 : List (String × VarDataset α)) :
    Option String × List String :=
  match runPeriods cfg pv provider
      (targetWindow cfg provider.coverage.1 provider.coverage.2).1.toOrdinal
      (targetWindow cfg provider.coverage.1 provider.coverage.2).2.toOrdinal
      (updateCandidates cfg (targetWindow cfg provider.coverage.1 provider.coverage.2).1
        (targetWindow cfg provider.coverage.1 provider.coverage.2).2)
      { disk := disk0, session := [] } with
  | (some e, st) => (some e, st.session)
  | (none, _) => (none, [])

/-- A provider that writes LAI for the first period and raises on the second
period (2001-01-09, 2001-01-17). -/
def c8Provider : ProviderModel Nat :=
  { coverage := (⟨2001, 1, 1⟩, ⟨2001, 2, 1⟩),
    images := fun p =>
      if p.1 = Date.toOrdinal ⟨2001, 1, 9⟩ then Except.error "provider failure"
      else Except.ok (some [("LAI", 0)]) }

/-- Claim C8: the code violates the claim.  When the provider raises on the
second period of the C1 scenario, Cube.update propagates the exception with
the partition handle 2001_LAI.nc — opened while writing the first period —
still open: update has no try/finally, so the closing loop never runs on the
error path. -/
theorem claim_C8 :
    updateRun c1Config pv0 c8Provider [] =
      (some "provider failure", [partitionFileName 2001 "LAI"]) := by
  decide

/-! ## CubeData._get_var_indices (cube.py lines 732-758)

The variable argument is a Python value: a string, an int, or an iterable of
such.  Iterating a string yields its one-character strings; iterating an int
raises TypeError — and in _get_var_indices that TypeError is raised inside
the body of the second except clause, where nothing catches it. -/

inductive PyVal where
  | str (s : String)
  | int (i : Int)
  | list (l : List PyVal)

/-- Lookup in the name-to-index dict (discovery order): only a string key
that is a known variable name resolves; int or list keys raise
KeyError/TypeError, which the caller catches. -/
def resolveAsName (names : List String) : PyVal → Option Nat
  | .str s => names.findIdx? (fun n => n == s)
  | _ => none

/-- Lookup in the index-to-name dict (keys 0..len-1): only an int in range
resolves; other keys raise, which the caller catches. -/
def resolveAsIndex (names : List String) : PyVal → Option Int
  | .int i => if 0 ≤ i ∧ i < names.length then some i else none
  | _ => none

/-- The per-element loop of the iterable branch (lines 744-758): resolve
each element as a name, else as an index, else raise ValueError. -/
def resolveList (names : List String) : List PyVal → Except PyErr (List Int)
  | [] => Except.ok []
  | v :: rest =>
      match resolveAsName names v with
      | some i => (resolveList names rest).map (fun l => (i : Int) :: l)
      | none =>
          match resolveAsIndex names v with
          | some i => (resolveList names rest).map (fun l => i :: l)
          | none => Except.error PyErr.valueError

/-- CubeData._get_var_indices: try the argument as a name, then as an index,
then iterate it — a string iterates as its characters, a list as its
elements, and an int raises TypeError (ints are not iterable, and the
raise happens inside the except handler's body where it is not caught). -/
def getVarIndices (names : List String) (v : PyVal) : Except PyErr (List Int) :=
  match resolveAsName names v with
  | some i => Except.ok [(i : Int)]
  | none =>
      match resolveAsIndex names v with
      | some i => Except.ok [i]
      | none =>
          match v with
          | .int _ => Except.error PyErr.typeError
          | .str s => resolveList names (s.data.map (fun c => PyVal.str (String.mk [c])))
          | .list l => resolveList names l

theorem resolveList_error (names : List String) (l : List PyVal)
    (h : ∃ v ∈ l, resolveAsName names v = none ∧ resolveAsIndex names v = none) :
    resolveList names l = Except.error PyErr.valueError := by
  induction l with
  | nil => obtain ⟨v, hv, _⟩ := h; exact absurd hv (List.not_mem_nil v)
  | cons x rest ih =>
    obtain ⟨v, hv, hvn, hvi⟩ := h
    rcases List.mem_cons.mp hv with rfl | hvr
    · unfold resolveList
      rw [hvn, hvi]
    · unfold resolveList
      cases hx : resolveAsName names x with
      | some i => rw [ih ⟨v, hvr, hvn, hvi⟩]; rfl
      | none =>
        cases hx2 : resolveAsIndex names x with
        | some i => rw [ih ⟨v, hvr, hvn, hvi⟩]; rfl
        | none => rfl

/-- Claim C9 (amended): an unresolvable entry inside an iterable variable
argument makes get fail with ValueError; an unresolvable scalar string whose
characters include an unresolvable one also fails with ValueError (the
fallback iterates the string character by character); but an unresolvable
scalar integer makes get fail with a TypeError — the fallback tries to
iterate the int, which is not iterable, and nothing catches that — rather
than the ValueError the original claim asserts. -/
theorem claim_C9 :
    (∀ (names : List String) (l : List PyVal),
      (∃ v ∈ l, resolveAsName names v = none ∧ resolveAsIndex names v = none) →
      getVarIndices names (PyVal.list l) = Except.error PyErr.valueError)
    ∧ (∀ (names : List String) (i : Int),
        resolveAsIndex names (PyVal.int i) = none →
        getVarIndices names (PyVal.int i) = Except.error PyErr.typeError)
    ∧ (∀ (names : List String) (s : String),
        resolveAsName names (PyVal.str s) = none →
        (∃ c ∈ s.data, resolveAsName names (PyVal.str (String.mk [c])) = none
          ∧ resolveAsIndex names (PyVal.str (String.mk [c])) = none) →
        getVarIndices names (PyVal.str s) = Except.error PyErr.valueError) := by
  refine ⟨?_, ?_, ?_⟩
  · intro names l h
    show resolveList names l = Except.error PyErr.valueError
    exact resolveList_error names l h
  · intro names i h
    unfold getVarIndices
    rw [h]
    rfl
  · intro names s hs h
    unfold getVarIndices
    rw [hs]
    show resolveList names (s.data.map (fun c => PyVal.str (String.mk [c])))
      = Except.error PyErr.valueError
    apply resolveList_error
    obtain ⟨c, hc, hcn, hci⟩ := h
    exact ⟨PyVal.str (String.mk [c]), List.mem_map.mpr ⟨c, hc, rfl⟩, hcn, hci⟩

/-- Claim C9 witness: an iterable containing an unknown name fails with
ValueError. -/
theorem claim_C9_witness :
    getVarIndices ["LAI"] (PyVal.list [PyVal.str "Ozone"]) =
      Except.error PyErr.valueError :=
  claim_C9.1 ["LAI"] [PyVal.str "Ozone"]
    ⟨PyVal.str "Ozone", List.mem_cons_self _ _, rfl, rfl⟩

/-- Claim C9 counterexample: the out-of-range scalar index 5 (with two known
variables) fails with TypeError, not the ValueError the claim asserts. -/
theorem claim_C9_counterexample :
    getVarIndices ["LAI", "FAPAR"] (PyVal.int 5) = Except.error PyErr.typeError ∧
    (Except.error PyErr.typeError : Except PyErr (List Int)) ≠
      Except.error PyErr.valueError := by
  refine ⟨rfl, ?_⟩
  intro h
  injection h with h2
  exact PyErr.noConfusion h2

/-! ## CubeData dataset slots and _close_datasets (cube.py lines 563-584,
760-779)

A slot holds None until its variable is first opened.  _close_datasets
iterates every slot in order, calls dataset.close() and resets the slot;
calling close() on a None slot raises AttributeError right there.  The model
returns the slot state at the end: on the ok path all slots are released, on
the error path the processed prefix is released and the failing slot and
everything after it keep their values (open handles stay open). -/

def closeDatasets {α : Type} :
    List (Option α) → Except (List (Option α)) (List (Option α))
  | [] => Except.ok []
  | none :: rest => Except.error (none :: rest)
  | some _ :: rest =>
      match closeDatasets rest with
      | Except.ok r => Except.ok (none :: r)
      | Except.error r => Except.error (none :: r)

/-- CubeData.__init__ line 583: self._datasets = [None] * number of
discovered variables. -/
def initDatasets (α : Type) (n : Nat) : List (Option α) :=
  List.replicate n none

/-- CubeData._get_or_open_variable (lines 760-763): return the cached slot
if it is set, otherwise open the dataset and cache it at that slot. -/
def getOrOpenVariable {α : Type} (datasets : List (Option α)) (openV : Nat → α)
    (i : Nat) : α × List (Option α) :=
  match datasets.getD i none with
  | some v => (v, datasets)
  | none => (openV i, datasets.set i (some (openV i)))

theorem closeDatasets_ok {α : Type} (l : List (Option α)) (h : (none : Option α) ∉ l) :
    closeDatasets l = Except.ok (List.replicate l.length none) := by
  induction l with
  | nil => rfl
  | cons x rest ih =>
    cases x with
    | none => exact absurd (List.mem_cons_self _ _) h
    | some v =>
      unfold closeDatasets
      rw [ih (fun hm => h (List.mem_cons_of_mem _ hm))]
      rfl

theorem closeDatasets_error {α : Type} (l₁ l₂ : List (Option α))
    (h : (none : Option α) ∉ l₁) :
    closeDatasets (l₁ ++ none :: l₂) =
      Except.error (List.replicate l₁.length none ++ none :: l₂) := by
  induction l₁ with
  | nil => rfl
  | cons x rest ih =>
    cases x with
    | none => exact absurd (List.mem_cons_self _ _) h
    | some v =>
      show closeDatasets (some v :: (rest ++ none :: l₂)) = _
      unfold closeDatasets
      rw [ih (fun hm => h (List.mem_cons_of_mem _ hm))]
      rfl

/-- Claim C10: dataset slots start as None and are only filled on first
access; _close_datasets calls close() on every slot unconditionally, so when
at least one discovered variable was never opened, close raises at the first
unopened slot: the slots before it are released, but the failing slot and
every handle after it are left as they were (not released).  When every slot
was opened, close completes and releases them all. -/
theorem claim_C10 :
    (∀ (α : Type) (n : Nat), initDatasets α n = List.replicate n none)
    ∧ (∀ (α : Type) (l₁ l₂ : List (Option α)), (none : Option α) ∉ l₁ →
        closeDatasets (l₁ ++ none :: l₂) =
          Except.error (List.replicate l₁.length none ++ none :: l₂))
    ∧ (∀ (α : Type) (l : List (Option α)), (none : Option α) ∉ l →
        closeDatasets l = Except.ok (List.replicate l.length none)) :=
  ⟨fun _ _ => rfl,
   fun _ l₁ l₂ h => closeDatasets_error l₁ l₂ h,
   fun _ l h => closeDatasets_ok l h⟩

/-- Claim C10 witness: with the second of three variables never opened,
close releases the first handle, raises at the unopened slot, and leaves the
third handle open. -/
theorem claim_C10_witness :
    closeDatasets [some 1, none, some 2] =
      Except.error [none, none, some 2] := by
  have h := claim_C10.2.1 Nat [some 1] [some 2] (by decide)
  exact h

end Esdl
